import Mathlib

/-!
Shallow embedding of the product auto-discovery pipeline:
the filter engine (`services/features/product_intelligence/filtering/product_filter_service.py`),
the LLM resilience layer (`core/llm/gemini_agent.py`, `core/llm/openai_agent.py`)
and the discovery orchestrator
(`services/features/product_intelligence/orchestration/auto_discovery_service.py`),
together with theorems settling the spec's claims about them.

Python floats are modelled as `ℚ`, Python ints as `Int`/`Nat`, Python `None`
as `Option`, raised exceptions as `Except`.
-/

/-- `pat` is a prefix of the character list. -/
def prefixOfList : List Char → List Char → Bool
  | [], _ => true
  | _ :: _, [] => false
  | a :: as, b :: bs => a == b && prefixOfList as bs

/-- `pat` occurs contiguously somewhere in the character list. -/
def infixOfList (pat : List Char) : List Char → Bool
  | [] => pat.isEmpty
  | c :: cs => prefixOfList pat (c :: cs) || infixOfList pat cs

/-- Python's `pat in s` substring test (both sides already lowercased by callers). -/
def containsSubstr (s pat : String) : Bool :=
  infixOfList pat.toList s.toList

/-- Replace every occurrence of `pat` (non-empty) in the list; `fuel` bounds the
recursion by the input length, so the definition is structural and executable. -/
def replaceListAux (pat rep : List Char) : ℕ → List Char → List Char
  | 0, l => l
  | _ + 1, [] => []
  | fuel + 1, c :: cs =>
    if !pat.isEmpty && prefixOfList pat (c :: cs) then
      rep ++ replaceListAux pat rep fuel ((c :: cs).drop pat.length)
    else c :: replaceListAux pat rep fuel cs

/-- Python `s.replace(pat, rep)` on character lists. -/
def replaceList (pat rep l : List Char) : List Char :=
  replaceListAux pat rep l.length l

/-- Split on every occurrence of a non-empty separator (`acc` holds the current
piece reversed); Python `s.split(sep)` semantics. -/
def splitOnAux (sep : List Char) : ℕ → List Char → List Char → List (List Char)
  | 0, l, acc => [acc.reverse ++ l]
  | _ + 1, [], acc => [acc.reverse]
  | fuel + 1, c :: cs, acc =>
    if !sep.isEmpty && prefixOfList sep (c :: cs) then
      acc.reverse :: splitOnAux sep fuel ((c :: cs).drop sep.length) []
    else splitOnAux sep fuel cs (c :: acc)

/-- Python `s.split(sep)` on character lists. -/
def splitOnList (sep l : List Char) : List (List Char) :=
  if sep.isEmpty then [l] else splitOnAux sep l.length l []

/-- Split at whitespace characters. -/
def splitWs : List Char → List Char → List (List Char)
  | [], acc => [acc.reverse]
  | c :: cs, acc =>
    if c.isWhitespace then acc.reverse :: splitWs cs [] else splitWs cs (c :: acc)

/-- Python `s.lower()` (ASCII case mapping). -/
def lowerStr (s : String) : String :=
  String.mk (s.toList.map Char.toLower)

/-- Python `s.replace(pat, rep)`. -/
def replaceStr (s pat rep : String) : String :=
  String.mk (replaceList pat.toList rep.toList s.toList)

/-- Python `s.strip()`. -/
def trimStr (s : String) : String :=
  String.mk (((s.toList.dropWhile Char.isWhitespace).reverse.dropWhile
    Char.isWhitespace).reverse)

/-- Python `s.split(sep)`. -/
def splitOnStr (s sep : String) : List String :=
  (splitOnList sep.toList s.toList).map String.mk

/-! ## Data model

`schemas/product_filter.py` and `schemas/product_crawler.py` are not part of the
source snapshot; the two records below are modelled from the spec's data model
(§3 FilterCriteria / NormalizedCandidate) and from the exact field accesses made
by `ProductFilterService._matches_criteria` and
`AutoDiscoveryService._convert_to_extended`. -/

/-- Modelled from the spec: `FilterCriteria` — "a set of independent optional
predicates (numeric ranges for price/rating/review-count/sales-count/trust-score,
platform set, mall/verified-seller flags, required/excluded keyword sets,
required/excluded brand sets, seller-location set, trust-badge set)".
Field names follow the accesses in `product_filter_service.py`. -/
structure ProductFilterCriteria where
  min_rating : Option ℚ
  max_rating : Option ℚ
  min_review_count : Option Int
  max_review_count : Option Int
  min_price : Option ℚ
  max_price : Option ℚ
  platforms : Option (List String)
  is_mall : Option Bool
  is_verified_seller : Option Bool
  required_keywords : Option (List String)
  excluded_keywords : Option (List String)
  min_sales_count : Option Int
  min_trust_score : Option ℚ
  trust_badge_types : Option (List String)
  required_brands : Option (List String)
  excluded_brands : Option (List String)
  seller_locations : Option (List String)
deriving DecidableEq

/-- The criteria record with every predicate dimension absent. -/
def emptyCriteria : ProductFilterCriteria :=
  ⟨none, none, none, none, none, none, none, none, none,
   none, none, none, none, none, none, none, none⟩

/-- Modelled from the spec: `NormalizedCandidate` (`CrawledProductItemExtended`)
— canonicalized candidate with fixed-point price, integer counts, platform tag;
fields as accessed by the filter service and as constructed by
`_convert_to_extended` (fields that constructor never sets are optional and
default to `none` in the pydantic schema). -/
structure CrawledProductItemExtended where
  platform : String
  product_name : String
  product_url : String
  price_current : ℚ
  rating_score : Option ℚ
  review_count : Option Int
  sales_count : Option Int
  is_mall : Bool
  is_verified_seller : Option Bool
  trust_score : Option ℚ
  trust_badge_type : Option String
  brand : Option String
  seller_location : Option String
  keywords_in_title : List String
  image_urls : List String
deriving DecidableEq

/-! ## Filter engine (`ProductFilterService`)

`_matches_criteria` is a sequence of guarded early `return False`s; each guard
below transcribes one `if` block of the Python, in source order, and
`matches_criteria` chains them. -/

/-- `if criteria.min_rating is not None: if product.rating_score is None or
product.rating_score < criteria.min_rating: return False` -/
def failMinRating (p : CrawledProductItemExtended) (c : ProductFilterCriteria) : Bool :=
  match c.min_rating with
  | none => false
  | some m => match p.rating_score with
    | none => true
    | some r => decide (r < m)

/-- `if criteria.max_rating is not None: if product.rating_score is not None and
product.rating_score > criteria.max_rating: return False` -/
def failMaxRating (p : CrawledProductItemExtended) (c : ProductFilterCriteria) : Bool :=
  match c.max_rating with
  | none => false
  | some m => match p.rating_score with
    | none => false
    | some r => decide (m < r)

/-- min_review_count guard. -/
def failMinReview (p : CrawledProductItemExtended) (c : ProductFilterCriteria) : Bool :=
  match c.min_review_count with
  | none => false
  | some m => match p.review_count with
    | none => true
    | some r => decide (r < m)

/-- max_review_count guard. -/
def failMaxReview (p : CrawledProductItemExtended) (c : ProductFilterCriteria) : Bool :=
  match c.max_review_count with
  | none => false
  | some m => match p.review_count with
    | none => false
    | some r => decide (m < r)

/-- `if product.price_current < criteria.min_price: return False` -/
def failMinPrice (p : CrawledProductItemExtended) (c : ProductFilterCriteria) : Bool :=
  match c.min_price with
  | none => false
  | some m => decide (p.price_current < m)

/-- `if product.price_current > criteria.max_price: return False` -/
def failMaxPrice (p : CrawledProductItemExtended) (c : ProductFilterCriteria) : Bool :=
  match c.max_price with
  | none => false
  | some m => decide (m < p.price_current)

/-- `if product.platform not in criteria.platforms: return False` -/
def failPlatform (p : CrawledProductItemExtended) (c : ProductFilterCriteria) : Bool :=
  match c.platforms with
  | none => false
  | some ps => !(ps.contains p.platform)

/-- `if product.is_mall != criteria.is_mall: return False` -/
def failMall (p : CrawledProductItemExtended) (c : ProductFilterCriteria) : Bool :=
  match c.is_mall with
  | none => false
  | some b => p.is_mall != b

/-- `if product.is_verified_seller != criteria.is_verified_seller: return False`
(the product-side flag may be `None`, which compares unequal to any `bool`). -/
def failVerified (p : CrawledProductItemExtended) (c : ProductFilterCriteria) : Bool :=
  match c.is_verified_seller with
  | none => false
  | some b => p.is_verified_seller != some b

/-- `if not all(keyword.lower() in product_name_lower for keyword in
criteria.required_keywords): return False` -/
def failRequiredKeywords (p : CrawledProductItemExtended) (c : ProductFilterCriteria) : Bool :=
  match c.required_keywords with
  | none => false
  | some kws => !(kws.all fun kw => containsSubstr (lowerStr p.product_name) (lowerStr kw))

/-- `if any(keyword.lower() in product_name_lower for keyword in
criteria.excluded_keywords): return False` -/
def failExcludedKeywords (p : CrawledProductItemExtended) (c : ProductFilterCriteria) : Bool :=
  match c.excluded_keywords with
  | none => false
  | some kws => kws.any fun kw => containsSubstr (lowerStr p.product_name) (lowerStr kw)

/-- min_sales_count guard. -/
def failMinSales (p : CrawledProductItemExtended) (c : ProductFilterCriteria) : Bool :=
  match c.min_sales_count with
  | none => false
  | some m => match p.sales_count with
    | none => true
    | some s => decide (s < m)

/-- min_trust_score guard. -/
def failMinTrust (p : CrawledProductItemExtended) (c : ProductFilterCriteria) : Bool :=
  match c.min_trust_score with
  | none => false
  | some m => match p.trust_score with
    | none => true
    | some t => decide (t < m)

/-- `if product.trust_badge_type is None or product.trust_badge_type not in
criteria.trust_badge_types: return False` -/
def failTrustBadge (p : CrawledProductItemExtended) (c : ProductFilterCriteria) : Bool :=
  match c.trust_badge_types with
  | none => false
  | some ts => match p.trust_badge_type with
    | none => true
    | some t => !(ts.contains t)

/-- `if product.brand is None or product.brand not in criteria.required_brands:
return False` -/
def failRequiredBrands (p : CrawledProductItemExtended) (c : ProductFilterCriteria) : Bool :=
  match c.required_brands with
  | none => false
  | some bs => match p.brand with
    | none => true
    | some b => !(bs.contains b)

/-- `if product.brand is not None and product.brand in criteria.excluded_brands:
return False` -/
def failExcludedBrands (p : CrawledProductItemExtended) (c : ProductFilterCriteria) : Bool :=
  match c.excluded_brands with
  | none => false
  | some bs => match p.brand with
    | none => false
    | some b => bs.contains b

/-- `if product.seller_location is None or product.seller_location not in
criteria.seller_locations: return False` -/
def failSellerLocation (p : CrawledProductItemExtended) (c : ProductFilterCriteria) : Bool :=
  match c.seller_locations with
  | none => false
  | some ls => match p.seller_location with
    | none => true
    | some l => !(ls.contains l)

/-- `ProductFilterService._matches_criteria`: the Python sequence of early
`return False` guards, in source order; falls through to `return True`. -/
def matches_criteria (p : CrawledProductItemExtended) (c : ProductFilterCriteria) : Bool :=
  if failMinRating p c then false
  else if failMaxRating p c then false
  else if failMinReview p c then false
  else if failMaxReview p c then false
  else if failMinPrice p c then false
  else if failMaxPrice p c then false
  else if failPlatform p c then false
  else if failMall p c then false
  else if failVerified p c then false
  else if failRequiredKeywords p c then false
  else if failExcludedKeywords p c then false
  else if failMinSales p c then false
  else if failMinTrust p c then false
  else if failTrustBadge p c then false
  else if failRequiredBrands p c then false
  else if failExcludedBrands p c then false
  else if failSellerLocation p c then false
  else true

/-- `ProductFilterService.filter_products`: keep the products that match. -/
def filter_products (products : List CrawledProductItemExtended)
    (criteria : ProductFilterCriteria) : List CrawledProductItemExtended :=
  products.filter (fun p => matches_criteria p criteria)

/-! ## Spec-side matcher for the filter engine

Modelled from the spec: "a candidate passes iff every *present* predicate
dimension holds; absent dimensions are vacuously true" (§4.5) — one positive
`holds` predicate per dimension, each `true` when the dimension is absent,
conjoined by `specMatches`. To be compared against `matches_criteria`. -/

/-- Modelled from the spec: the min-rating dimension holds. -/
def holdsMinRating (p : CrawledProductItemExtended) (c : ProductFilterCriteria) : Bool :=
  match c.min_rating with
  | none => true
  | some m => match p.rating_score with
    | none => false
    | some r => decide (m ≤ r)

/-- Modelled from the spec: the max-rating dimension holds. -/
def holdsMaxRating (p : CrawledProductItemExtended) (c : ProductFilterCriteria) : Bool :=
  match c.max_rating with
  | none => true
  | some m => match p.rating_score with
    | none => true
    | some r => decide (r ≤ m)

/-- Modelled from the spec: the min-review-count dimension holds. -/
def holdsMinReview (p : CrawledProductItemExtended) (c : ProductFilterCriteria) : Bool :=
  match c.min_review_count with
  | none => true
  | some m => match p.review_count with
    | none => false
    | some r => decide (m ≤ r)

/-- Modelled from the spec: the max-review-count dimension holds. -/
def holdsMaxReview (p : CrawledProductItemExtended) (c : ProductFilterCriteria) : Bool :=
  match c.max_review_count with
  | none => true
  | some m => match p.review_count with
    | none => true
    | some r => decide (r ≤ m)

/-- Modelled from the spec: the min-price dimension holds. -/
def holdsMinPrice (p : CrawledProductItemExtended) (c : ProductFilterCriteria) : Bool :=
  match c.min_price with
  | none => true
  | some m => decide (m ≤ p.price_current)

/-- Modelled from the spec: the max-price dimension holds. -/
def holdsMaxPrice (p : CrawledProductItemExtended) (c : ProductFilterCriteria) : Bool :=
  match c.max_price with
  | none => true
  | some m => decide (p.price_current ≤ m)

/-- Modelled from the spec: the platform-set dimension holds. -/
def holdsPlatform (p : CrawledProductItemExtended) (c : ProductFilterCriteria) : Bool :=
  match c.platforms with
  | none => true
  | some ps => ps.contains p.platform

/-- Modelled from the spec: the mall-flag dimension holds. -/
def holdsMall (p : CrawledProductItemExtended) (c : ProductFilterCriteria) : Bool :=
  match c.is_mall with
  | none => true
  | some b => p.is_mall == b

/-- Modelled from the spec: the verified-seller-flag dimension holds. -/
def holdsVerified (p : CrawledProductItemExtended) (c : ProductFilterCriteria) : Bool :=
  match c.is_verified_seller with
  | none => true
  | some b => p.is_verified_seller == some b

/-- Modelled from the spec: the required-keyword-set dimension holds. -/
def holdsRequiredKeywords (p : CrawledProductItemExtended) (c : ProductFilterCriteria) : Bool :=
  match c.required_keywords with
  | none => true
  | some kws => kws.all fun kw => containsSubstr (lowerStr p.product_name) (lowerStr kw)

/-- Modelled from the spec: the excluded-keyword-set dimension holds. -/
def holdsExcludedKeywords (p : CrawledProductItemExtended) (c : ProductFilterCriteria) : Bool :=
  match c.excluded_keywords with
  | none => true
  | some kws => !(kws.any fun kw => containsSubstr (lowerStr p.product_name) (lowerStr kw))

/-- Modelled from the spec: the min-sales-count dimension holds. -/
def holdsMinSales (p : CrawledProductItemExtended) (c : ProductFilterCriteria) : Bool :=
  match c.min_sales_count with
  | none => true
  | some m => match p.sales_count with
    | none => false
    | some s => decide (m ≤ s)

/-- Modelled from the spec: the min-trust-score dimension holds. -/
def holdsMinTrust (p : CrawledProductItemExtended) (c : ProductFilterCriteria) : Bool :=
  match c.min_trust_score with
  | none => true
  | some m => match p.trust_score with
    | none => false
    | some t => decide (m ≤ t)

/-- Modelled from the spec: the trust-badge-set dimension holds. -/
def holdsTrustBadge (p : CrawledProductItemExtended) (c : ProductFilterCriteria) : Bool :=
  match c.trust_badge_types with
  | none => true
  | some ts => match p.trust_badge_type with
    | none => false
    | some t => ts.contains t

/-- Modelled from the spec: the required-brand-set dimension holds. -/
def holdsRequiredBrands (p : CrawledProductItemExtended) (c : ProductFilterCriteria) : Bool :=
  match c.required_brands with
  | none => true
  | some bs => match p.brand with
    | none => false
    | some b => bs.contains b

/-- Modelled from the spec: the excluded-brand-set dimension holds. -/
def holdsExcludedBrands (p : CrawledProductItemExtended) (c : ProductFilterCriteria) : Bool :=
  match c.excluded_brands with
  | none => true
  | some bs => match p.brand with
    | none => true
    | some b => !(bs.contains b)

/-- Modelled from the spec: the seller-location-set dimension holds. -/
def holdsSellerLocation (p : CrawledProductItemExtended) (c : ProductFilterCriteria) : Bool :=
  match c.seller_locations with
  | none => true
  | some ls => match p.seller_location with
    | none => false
    | some l => ls.contains l

/-- Modelled from the spec: AND over the present predicate dimensions only. -/
def specMatches (p : CrawledProductItemExtended) (c : ProductFilterCriteria) : Bool :=
  holdsMinRating p c && holdsMaxRating p c && holdsMinReview p c && holdsMaxReview p c &&
  holdsMinPrice p c && holdsMaxPrice p c && holdsPlatform p c && holdsMall p c &&
  holdsVerified p c && holdsRequiredKeywords p c && holdsExcludedKeywords p c &&
  holdsMinSales p c && holdsMinTrust p c && holdsTrustBadge p c &&
  holdsRequiredBrands p c && holdsExcludedBrands p c && holdsSellerLocation p c

/-! ## Resilience layer (`core/llm/gemini_agent.py`)

A raised Python exception is modelled by `PyError`: the lowercase-relevant
text views `str(error)` / `repr(error)`, the three `google.api_core` exception
`isinstance` tests, and the optional structured `status_code` / `code`
attributes (`none` = attribute absent). -/

/-- A backend error as observed by `GeminiAgent._is_retryable_error`. -/
structure PyError where
  errStr : String
  errRepr : String
  isServiceUnavailable : Bool
  isTooManyRequests : Bool
  isResourceExhausted : Bool
  status_code : Option Int
  code : Option Int
deriving DecidableEq

/-- The lowercased-text patterns tested by `_is_retryable_error`, in source
order: network conditions, 503/unavailable/overloaded, 429/rate limit. -/
def retryTextPatterns : List String :=
  ["no route to host", "errno 113", "connection refused", "connection timeout",
   "network", "503", "unavailable", "overloaded", "429", "rate limit"]

/-- One textual pattern matches `str(error).lower()` or `repr(error).lower()`. -/
def textPatternHit (e : PyError) (pat : String) : Bool :=
  containsSubstr (lowerStr e.errStr) pat || containsSubstr (lowerStr e.errRepr) pat

/-- `GeminiAgent._is_retryable_error`, transcribed in source order: the text
checks run first and unconditionally; then the `google.api_core` isinstance
checks (guarded by the import having succeeded); then the `status_code` and
`code` attribute checks.  `googleExcAvailable` models whether the optional
`google.api_core` import succeeded. -/
def is_retryable_error (googleExcAvailable : Bool) (e : PyError) : Bool :=
  if textPatternHit e "no route to host" then true
  else if textPatternHit e "errno 113" then true
  else if textPatternHit e "connection refused" then true
  else if textPatternHit e "connection timeout" then true
  else if textPatternHit e "network" then true
  else if textPatternHit e "503" then true
  else if textPatternHit e "unavailable" then true
  else if textPatternHit e "overloaded" then true
  else if textPatternHit e "429" then true
  else if textPatternHit e "rate limit" then true
  else if googleExcAvailable &&
      (e.isServiceUnavailable || e.isTooManyRequests || e.isResourceExhausted) then true
  else if (match e.status_code with
           | some sc => [503, 429, 500, 502, 504].contains sc
           | none => false) then true
  else if (match e.code with
           | some cd => [113, 111, 110, 503, 429, 500, 502, 504].contains cd
           | none => false) then true
  else false

/-- Modelled from the spec: retryable classification "by structured status/code
field first, falling back to text matching only for opaque errors" (§4.1) — an
error carrying a structured `status_code`/`code` field is judged on those fields
alone; text matching applies only when both fields are absent. -/
def specRetryable (e : PyError) : Bool :=
  match e.status_code, e.code with
  | none, none =>
      retryTextPatterns.any (textPatternHit e) ||
      e.isServiceUnavailable || e.isTooManyRequests || e.isResourceExhausted
  | sc, cd =>
      (match sc with
       | some v => [503, 429, 500, 502, 504].contains v
       | none => false) ||
      (match cd with
       | some v => [113, 111, 110, 503, 429, 500, 502, 504].contains v
       | none => false)

/-- Outcome of one `generate` call: a returned `LLMResponse`, a raised backend
error, or the unreachable fall-through `raise Exception("Unknown error ...")`. -/
inductive GenOutcome (E R : Type) where
  | success (r : R)
  | failure (e : E)
  | unknownError
deriving DecidableEq

/-- Observable run of the retry loop: final outcome, the sequence of backoff
sleeps (`retry_delay * 2^attempt`, in order), and attempts actually made. -/
structure GenRun (E R : Type) where
  outcome : GenOutcome E R
  sleeps : List ℚ
  attempts : ℕ
deriving DecidableEq

/-- The body of `for attempt in range(self.max_retries)` in
`GeminiAgent.generate`: `outcomes attempt` is what the backend call of attempt
number `attempt` does (`.ok` = returns, `.error` = raises).  On an error that is
retryable with attempts remaining (`attempt < max_retries - 1`) it sleeps
`retry_delay * 2 ^ attempt` and continues; otherwise it re-raises. -/
def generateAux (outcomes : ℕ → Except E R) (retryable : E → Bool)
    (maxRetries : ℕ) (retryDelay : ℚ) : ℕ → ℕ → GenRun E R
  | _, 0 => ⟨.unknownError, [], 0⟩
  | attempt, fuel + 1 =>
    match outcomes attempt with
    | .ok r => ⟨.success r, [], 1⟩
    | .error e =>
      if retryable e && decide (attempt < maxRetries - 1) then
        let rest := generateAux outcomes retryable maxRetries retryDelay (attempt + 1) fuel
        ⟨rest.outcome, retryDelay * 2 ^ attempt :: rest.sleeps, rest.attempts + 1⟩
      else ⟨.failure e, [], 1⟩

/-- `GeminiAgent.generate`'s retry loop, started at attempt 0 with
`max_retries` loop iterations available. -/
def geminiGenerate (outcomes : ℕ → Except E R) (retryable : E → Bool)
    (maxRetries : ℕ) (retryDelay : ℚ) : GenRun E R :=
  generateAux outcomes retryable maxRetries retryDelay 0 maxRetries

/-- `OpenAIAgent.generate` (`core/llm/openai_agent.py`): a single backend call
inside `try`; an exception is logged and re-raised — no classification, no
retry, no sleep. -/
def openAIGenerate (callResult : Except E R) : GenRun E R :=
  match callResult with
  | .ok r => ⟨.success r, [], 1⟩
  | .error e => ⟨.failure e, [], 1⟩

/-! ## Candidate normalization (`AutoDiscoveryService._convert_to_extended`) -/

/-- The raw `item.price` of a crawled item: absent (`None`), a Python
`int`/`float`, or a string. -/
inductive RawPrice where
  | absent
  | num (q : ℚ)
  | strv (s : String)
deriving DecidableEq

/-- A raw sold-count, `int` or string (shorthand like `"1.2k"`). -/
inductive SoldVal where
  | asInt (n : Int)
  | asStr (s : String)
deriving DecidableEq

/-- `CrawledProductItem` (raw scraper output; the schema file is not in the
source snapshot — modelled from the spec's `CrawledCandidate`, "name, price as
string or number, sold count, rating, image, link, platform tag", with the
fields `_convert_to_extended` reads; `review_count` modelled as
already-integral). -/
structure CrawledProductItem where
  name : String
  price : RawPrice
  sold : Option SoldVal
  rating : Option ℚ
  img : Option String
  link : Option String
  platform : Option String
  review_count : Option Int
deriving DecidableEq

/-- Digit run as a natural number (`none` unless every char is a digit). -/
def digitsOf (t : List Char) : Option ℕ :=
  if t.all Char.isDigit then
    some (t.foldl (fun a c => a * 10 + (c.toNat - 48)) 0)
  else none

/-- Python `float(s)` on the decimal grammar: optional sign, digits with at
most one dot, at least one digit (the model omits exponents and `inf`/`nan`,
which never arise from the price-cleanup below on numeric price strings). -/
def pyFloat (s : String) : Option ℚ :=
  let (neg, body) :=
    match s.toList with
    | '-' :: rest => (true, rest)
    | '+' :: rest => (false, rest)
    | cs => (false, cs)
  match splitOnList ['.'] body with
  | [ip] =>
    if ip.isEmpty then none
    else match digitsOf ip with
      | some n => some (if neg then -(n : ℚ) else (n : ℚ))
      | none => none
  | [ip, fp] =>
    if ip.isEmpty && fp.isEmpty then none
    else match digitsOf ip, digitsOf fp with
      | some n, some f =>
        let q : ℚ := (n : ℚ) + (f : ℚ) / ((10 : ℚ) ^ fp.length)
        some (if neg then -q else q)
      | _, _ => none
  | _ => none

/-- Python `int(float)`: truncation toward zero. -/
def pyTrunc (q : ℚ) : Int :=
  if q < 0 then -((-q).floor) else q.floor

/-- Python `int(s)` on a string: optional sign plus digits. -/
def pyInt (s : String) : Option Int :=
  let (neg, body) :=
    match s.toList with
    | '-' :: rest => (true, rest)
    | '+' :: rest => (false, rest)
    | cs => (false, cs)
  if body.isEmpty then none
  else match digitsOf body with
    | some n => some (if neg then -(n : Int) else (n : Int))
    | none => none

/-- The currency cleanup of `_convert_to_extended`:
`price.replace(',','').replace('₫','').replace('đ','').replace('VND','')
.replace('vnd','').strip()`. -/
def stripCurrency (s : String) : String :=
  trimStr (replaceStr (replaceStr (replaceStr (replaceStr (replaceStr s "," "")
    "₫" "") "đ" "") "VND" "") "vnd" "")

/-- The dot-handling of `_convert_to_extended`: a two-part split whose last part
has exactly 3 digits is a thousands separator (joined), and a >2-part split is
joined; otherwise the string is left as-is. -/
def cleanDots (t : String) : String :=
  let parts := splitOnStr t "."
  match parts with
  | [a, b] => if b.length == 3 && decide (1 ≤ a.length) then a ++ b else t
  | _ => if parts.length > 2 then String.mk (parts.map String.toList).flatten else t

/-- The price normalization of `_convert_to_extended`: sentinel `0.0` for a
falsy price; numbers pass through `float(...)`; strings are cleaned then parsed,
any `ValueError`/`TypeError` caught and mapped to `0.0`. -/
def parsePrice : RawPrice → ℚ
  | .absent => 0
  | .num q => if q = 0 then 0 else q
  | .strv s =>
    if s = "" then 0
    else match pyFloat (cleanDots (stripCurrency s)) with
      | some q => q
      | none => 0

/-- `AutoDiscoveryService._parse_sales_count`. -/
def parse_sales_count : Option SoldVal → Option Int
  | none => none
  | some (.asInt n) => some n
  | some (.asStr s) =>
    let t := replaceStr (replaceStr (lowerStr s) "," "") " " ""
    if containsSubstr t "k" then
      match pyFloat (replaceStr t "k" "") with
      | some q => some (pyTrunc (q * 1000))
      | none => match pyInt t with
        | some n => some n
        | none => none
    else match pyInt t with
      | some n => some n
      | none => none

/-- `AutoDiscoveryService._extract_keywords`. -/
def extract_keywords (text : String) : List String :=
  let stopWords : List String :=
    ["và", "của", "cho", "với", "từ", "đến", "có", "là", "một", "các", "the", "a", "an"]
  (((splitWs (lowerStr text).toList []).map String.mk).filter
    fun w => decide (w.length > 2) && !(stopWords.contains w)).take 10

/-- `AutoDiscoveryService._detect_platform`. -/
def detect_platform (url : String) : String :=
  let u := lowerStr url
  if containsSubstr u "shopee" then "shopee"
  else if containsSubstr u "lazada" then "lazada"
  else if containsSubstr u "tiki" then "tiki"
  else "unknown"

/-- `AutoDiscoveryService._convert_to_extended` (Python `or` treats `None` and
`""` as falsy in `item.platform or ...`, `item.link or ...`, `if item.img`). -/
def convert_to_extended (item : CrawledProductItem) (source_url : String) :
    CrawledProductItemExtended where
  platform := match item.platform with
    | some p => if p = "" then detect_platform source_url else p
    | none => detect_platform source_url
  product_name := item.name
  product_url := match item.link with
    | some l => if l = "" then source_url else l
    | none => source_url
  price_current := parsePrice item.price
  rating_score := item.rating
  review_count := item.review_count
  sales_count := parse_sales_count item.sold
  is_mall := false
  is_verified_seller := none
  trust_score := none
  trust_badge_type := none
  brand := none
  seller_location := none
  keywords_in_title := extract_keywords item.name
  image_urls := match item.img with
    | some i => if i = "" then [] else [i]
    | none => []

/-! ## Crawl loop (`AutoDiscoveryService.execute_auto_discovery`, lines 213-243)

`scrape idx url lim` models `ScraperFactory.get_scraper(url)
.crawl_search_results(url, max_products=lim)` for the `idx`-th URL: `.error` is
a raised exception (logged and skipped), `.ok items` the returned list — which
an untrusted scraper may make longer than `lim`. -/

/-- The global crawl cap `MAX_CRAWL_PRODUCTS`. -/
def MAX_CRAWL_PRODUCTS : ℕ := 20

/-- `max_per_url = max(1, MAX_CRAWL_PRODUCTS // max(len(search_urls), 1))`. -/
def max_per_url_of (searchUrls : List String) : ℕ :=
  max 1 (MAX_CRAWL_PRODUCTS / max searchUrls.length 1)

/-- The inner `for item in crawled_items` loop: append converted items until the
global cap is reached. -/
def addCrawledItems (source_url : String) :
    List CrawledProductItem → List CrawledProductItemExtended →
    List CrawledProductItemExtended
  | [], acc => acc
  | item :: rest, acc =>
    if acc.length ≥ MAX_CRAWL_PRODUCTS then acc
    else addCrawledItems source_url rest (acc ++ [convert_to_extended item source_url])

/-- The outer `for search_url in search_urls` loop; also returns the trace of
`crawl_limit` values passed to the scraper calls actually issued. -/
def crawlAux (scrape : ℕ → String → ℕ → Except Unit (List CrawledProductItem))
    (max_per_url : ℕ) :
    List String → ℕ → List CrawledProductItemExtended →
    List CrawledProductItemExtended × List ℕ
  | [], _, acc => (acc, [])
  | url :: rest, idx, acc =>
    if acc.length ≥ MAX_CRAWL_PRODUCTS then (acc, [])
    else
      let remaining := MAX_CRAWL_PRODUCTS - acc.length
      let crawl_limit := min max_per_url remaining
      match scrape idx url crawl_limit with
      | .error _ =>
        let next := crawlAux scrape max_per_url rest (idx + 1) acc
        (next.1, crawl_limit :: next.2)
      | .ok items =>
        let next := crawlAux scrape max_per_url rest (idx + 1) (addCrawledItems url items acc)
        (next.1, crawl_limit :: next.2)

/-- The whole crawl stage: per-URL quota from the URL count, loop from an empty
accumulator. -/
def crawlLoop (scrape : ℕ → String → ℕ → Except Unit (List CrawledProductItem))
    (searchUrls : List String) : List CrawledProductItemExtended × List ℕ :=
  crawlAux scrape (max_per_url_of searchUrls) searchUrls 0 []

/-! ## Orchestrator (`AutoDiscoveryService.execute_auto_discovery`)

The result dict is modelled by `Envelope` (`none` = key absent from the dict);
each `return {...}` site of the Python has one builder below, carrying exactly
the keys that site sets. -/

/-- The orchestrator's result dict. -/
structure Envelope where
  status : String
  message : String
  error_type : Option String
  suggested_platforms : Option (List String)
  extracted_criteria : Option ProductFilterCriteria
  filter_criteria : Option ProductFilterCriteria
  products_found : Option ℕ
  products_filtered : Option ℕ
  products_imported : Option ℕ
  imported_product_ids : Option (List String)
deriving DecidableEq

/-- Return site at lines 141-145 (`intent_parsing_failed`). -/
def intentParsingFailedEnvelope (err : String) : Envelope :=
  ⟨"error", "Không thể phân tích tiêu chí lọc: " ++ err, some "intent_parsing_failed",
   none, none, none, none, none, none, none⟩

/-- Return site at lines 154-160 (`platform_not_supported`). -/
def platformNotSupportedEnvelope (available : List String)
    (criteria : ProductFilterCriteria) : Envelope :=
  ⟨"error",
   "Hiện tại công cụ scraper cho Shopee chưa hoàn thiện. Vui lòng tìm kiếm trên Lazada hoặc Tiki thay thế.",
   some "platform_not_supported", some available, some criteria, none, none, none, none, none⟩

/-- Return site at lines 168-173 (`criteria_validation_failed`; Python
`validation_error or default` treats `None` and `""` as falsy). -/
def criteriaValidationFailedEnvelope (validation_error : Option String)
    (criteria : ProductFilterCriteria) : Envelope :=
  ⟨"error",
   (match validation_error with
    | some m => if m = "" then "AI không hiểu yêu cầu của bạn" else m
    | none => "AI không hiểu yêu cầu của bạn"),
   some "criteria_validation_failed", none, some criteria, none, none, none, none, none⟩

/-- Return site at lines 207-211 (`no_products_found`). -/
def noProductsFoundEnvelope : Envelope :=
  ⟨"error", "Không tìm thấy sản phẩm nào từ AI search", some "no_products_found",
   none, none, none, none, none, none, none⟩

/-- Return site at lines 246-251 (`crawl_failed`, with `products_found: 0`). -/
def crawlFailedEnvelope : Envelope :=
  ⟨"error",
   "Không thể crawl được sản phẩm nào từ các search links. Có thể do: (1) Links không hợp lệ, (2) Platform chặn requests, (3) Network issues. Vui lòng thử lại sau.",
   some "crawl_failed", none, none, none, some 0, none, none, none⟩

/-- Return site at lines 276-283 (`no_products_after_filter`). -/
def noProductsAfterFilterEnvelope (found : ℕ) : Envelope :=
  ⟨"error",
   "Không có sản phẩm nào đạt yêu cầu sau khi lọc. Vui lòng thử lại với tiêu chí lọc ít nghiêm ngặt hơn.",
   some "no_products_after_filter", none, none, none, some found, some 0, none, none⟩

/-- Return site at lines 291-299 (`import_failed`). -/
def importFailedEnvelope (found filteredCount : ℕ) : Envelope :=
  ⟨"error",
   "Không thể import sản phẩm nào vào database. Có thể do lỗi permission hoặc duplicate.",
   some "import_failed", none, none, none, some found, some filteredCount, some 0, none⟩

/-- Return site at lines 315-321 (`execution_error`, the catch-all `except`). -/
def executionErrorEnvelope (err : String) : Envelope :=
  ⟨"error", "Lỗi trong quá trình tự động hóa: " ++ err, some "execution_error",
   none, none, none, none, none, none, none⟩

/-- Return site at lines 305-313 (success). -/
def successEnvelope (fc : Option ProductFilterCriteria)
    (found filteredCount : ℕ) (ids : List String) : Envelope :=
  let base := "Đã import " ++ toString ids.length ++ " sản phẩm thành công"
  let msg := if ids.length < filteredCount then
      base ++ " (" ++ toString (filteredCount - ids.length) ++
        " sản phẩm bị bỏ qua do duplicate hoặc lỗi)"
    else base
  ⟨"success", msg, none, none, none, fc, some found, some filteredCount,
   some ids.length, some ids⟩

/-- The external collaborators of one discovery run, as the orchestrator
observes them: the filter-intent parser result, the criteria validator verdict,
the AI search (platform ↦ (any recommended products?, extracted search URLs)),
the scrapers, the ranking selector and the importer.  `.error` on `rank` /
`importProducts` models a raised exception (caught by the orchestrator's
catch-all `except`). -/
structure DiscoveryEnv where
  intentParse : String → Except String ProductFilterCriteria
  validator : String → ProductFilterCriteria → Bool × Option String
  search : String → Bool × List String
  scrape : ℕ → String → ℕ → Except Unit (List CrawledProductItem)
  rank : List CrawledProductItemExtended → String → Option ProductFilterCriteria → ℕ →
    Except String (List CrawledProductItemExtended)
  importProducts : List CrawledProductItemExtended → Except String (List String)

/-- The stages from the AI search onward (lines 177-313): search, crawl loop,
filter, rank-or-truncate, import, envelope. -/
def discoveryPipeline (env : DiscoveryEnv) (userQuery : String) (maxProducts : ℕ)
    (filter_criteria : Option ProductFilterCriteria) : Envelope :=
  let sp := match filter_criteria with
    | some c => match c.platforms with
      | some [p] => lowerStr p
      | _ => "all"
    | none => "all"
  let search_platform := if sp = "shopee" then "all" else sp
  let sr := env.search search_platform
  if !sr.1 then noProductsFoundEnvelope
  else
    let all_crawled := (crawlLoop env.scrape sr.2).1
    if all_crawled.isEmpty then crawlFailedEnvelope
    else
      let filtered := match filter_criteria with
        | some c => filter_products all_crawled c
        | none => all_crawled
      let sel : Except String (List CrawledProductItemExtended) :=
        if filtered.length > maxProducts then
          env.rank filtered userQuery filter_criteria maxProducts
        else .ok (filtered.take maxProducts)
      match sel with
      | .error ex => executionErrorEnvelope ex
      | .ok selected =>
        if selected.isEmpty then noProductsAfterFilterEnvelope all_crawled.length
        else match env.importProducts selected with
          | .error ex => executionErrorEnvelope ex
          | .ok ids =>
            if ids.isEmpty then importFailedEnvelope all_crawled.length selected.length
            else successEnvelope filter_criteria all_crawled.length selected.length ids

/-- The criteria-validation step (lines 162-175) followed by the pipeline. -/
def validateStage (env : DiscoveryEnv) (userQuery : String) (maxProducts : ℕ)
    (txt : String) (criteria : ProductFilterCriteria) : Envelope :=
  let v := env.validator txt criteria
  if !v.1 then criteriaValidationFailedEnvelope v.2 criteria
  else discoveryPipeline env userQuery maxProducts (some criteria)

/-- `AutoDiscoveryService.execute_auto_discovery` (lines 116-321): the criteria
branch (`if filter_criteria_text:` — `None` and `""` falsy), the
administratively-disabled-platform short-circuit, the validator, then the
pipeline. -/
def execute_auto_discovery (env : DiscoveryEnv) (userQuery : String)
    (filter_criteria_text : Option String) (maxProducts : ℕ) : Envelope :=
  match filter_criteria_text with
  | none => discoveryPipeline env userQuery maxProducts none
  | some txt =>
    if txt = "" then discoveryPipeline env userQuery maxProducts none
    else
      match env.intentParse txt with
      | .error err => intentParsingFailedEnvelope err
      | .ok criteria =>
        let platformsList := criteria.platforms.getD []
        if platformsList.isEmpty then validateStage env userQuery maxProducts txt criteria
        else
          let platforms_lower := platformsList.map lowerStr
          if platforms_lower.contains "shopee" then
            let avail0 := platforms_lower.filter fun p => p ≠ "shopee"
            let available := if avail0.isEmpty then ["lazada", "tiki"] else avail0
            platformNotSupportedEnvelope available criteria
          else validateStage env userQuery maxProducts txt criteria

/-! ## Concrete instances used by witnesses and counterexamples -/

/-- A candidate whose optional fields are all missing. -/
def pAllMissing : CrawledProductItemExtended :=
  ⟨"lazada", "widget pro", "http://lazada.vn/p", 0, none, none, none, false,
   none, none, none, none, none, [], []⟩

/-- An error whose structured status is 404 but whose text mentions a network. -/
def e404 : PyError :=
  ⟨"social network error", "social network error", false, false, false, some 404, none⟩

/-- A rate-limit error (HTTP 429). -/
def e429 : PyError :=
  ⟨"429 rate limit exceeded", "429 rate limit exceeded", false, false, false,
   some 429, none⟩

/-- Backend outcomes: attempts 0 and 1 raise, attempt 2 returns 7. -/
def oTwoFailures : ℕ → Except ℕ ℕ := fun i => if i < 2 then .error (i + 1) else .ok 7

/-- Backend outcomes: every attempt raises error `i`. -/
def oAlwaysFails : ℕ → Except ℕ ℕ := fun i => .error i

/-- Backend outcomes: attempt 0 raises error 5. -/
def oFailsWithFive : ℕ → Except ℕ ℕ := fun _ => .error 5

/-- Classifier marking every error retryable. -/
def rbAll : ℕ → Bool := fun _ => true

/-- Classifier marking no error retryable. -/
def rbNone : ℕ → Bool := fun _ => false

/-- A crawled item whose raw price is the negative string `"-5"`. -/
def itemNegPrice : CrawledProductItem :=
  ⟨"x", .strv "-5", none, none, none, none, some "lazada", none⟩

/-- A crawled item with an ordinary numeric price. -/
def itemPlain : CrawledProductItem :=
  ⟨"widget", .num 5, none, none, none, some "http://lazada.vn/p", some "lazada", none⟩

/-- Environment for which the crawl finds one product and the importer then
raises: reaches the catch-all `execution_error` envelope. -/
def envImportRaises : DiscoveryEnv where
  intentParse := fun _ => .error "unused"
  validator := fun _ _ => (true, none)
  search := fun _ => (true, ["http://lazada.vn/s"])
  scrape := fun _ _ _ => .ok [itemPlain]
  rank := fun ps _ _ _ => .ok ps
  importProducts := fun _ => .error "db down"

/-- Environment for which the crawl finds one product and the importer returns
an empty id list: reaches the `import_failed` envelope. -/
def envImportEmpty : DiscoveryEnv where
  intentParse := fun _ => .error "unused"
  validator := fun _ _ => (true, none)
  search := fun _ => (true, ["http://lazada.vn/s"])
  scrape := fun _ _ _ => .ok [itemPlain]
  rank := fun ps _ _ _ => .ok ps
  importProducts := fun _ => .ok []

/-- Criteria requesting only the disabled platform (capitalized, as a model
might emit it). -/
def critShopeeOnly : ProductFilterCriteria :=
  ⟨none, none, none, none, none, none, some ["Shopee"], none, none,
   none, none, none, none, none, none, none, none⟩

/-- Environment whose intent parser extracts `critShopeeOnly`. -/
def envShopee : DiscoveryEnv where
  intentParse := fun _ => .ok critShopeeOnly
  validator := fun _ _ => (true, none)
  search := fun _ => (true, [])
  scrape := fun _ _ _ => .error ()
  rank := fun ps _ _ _ => .ok ps
  importProducts := fun _ => .ok []

/-- A crawled item with no raw price. -/
def itemAbsentPrice : CrawledProductItem :=
  ⟨"y", .absent, none, none, none, none, some "tiki", none⟩

/-- A crawled item whose raw price string is unparsable. -/
def itemBadPrice : CrawledProductItem :=
  ⟨"z", .strv "N/A", none, none, none, none, some "tiki", none⟩

/-! # Theorems -/

/-! ### Generic boolean helpers -/

theorem ifFalseLeft (b x : Bool) : (if b then false else x) = (!b && x) := by
  cases b <;> simp

theorem ifTrueLeft (b x : Bool) : (if b then true else x) = (b || x) := by
  cases b <;> simp

theorem decideLeEqNotDecideLt {α : Type} [LinearOrder α] (a b : α) :
    decide (a ≤ b) = !decide (b < a) := by
  by_cases h : a ≤ b
  · simp [h, not_lt.mpr h]
  · simp [h, lt_of_not_le h]

/-! ### Per-dimension equalities: each spec-side `holds` is the negation of the
corresponding transcribed guard -/

theorem holdsMinRating_eq (p : CrawledProductItemExtended) (c : ProductFilterCriteria) :
    holdsMinRating p c = !failMinRating p c := by
  unfold holdsMinRating failMinRating
  rcases c.min_rating with _ | m
  · rfl
  · rcases p.rating_score with _ | r
    · rfl
    · exact decideLeEqNotDecideLt m r

theorem holdsMaxRating_eq (p : CrawledProductItemExtended) (c : ProductFilterCriteria) :
    holdsMaxRating p c = !failMaxRating p c := by
  unfold holdsMaxRating failMaxRating
  rcases c.max_rating with _ | m
  · rfl
  · rcases p.rating_score with _ | r
    · rfl
    · exact decideLeEqNotDecideLt r m

theorem holdsMinReview_eq (p : CrawledProductItemExtended) (c : ProductFilterCriteria) :
    holdsMinReview p c = !failMinReview p c := by
  unfold holdsMinReview failMinReview
  rcases c.min_review_count with _ | m
  · rfl
  · rcases p.review_count with _ | r
    · rfl
    · exact decideLeEqNotDecideLt m r

theorem holdsMaxReview_eq (p : CrawledProductItemExtended) (c : ProductFilterCriteria) :
    holdsMaxReview p c = !failMaxReview p c := by
  unfold holdsMaxReview failMaxReview
  rcases c.max_review_count with _ | m
  · rfl
  · rcases p.review_count with _ | r
    · rfl
    · exact decideLeEqNotDecideLt r m

theorem holdsMinPrice_eq (p : CrawledProductItemExtended) (c : ProductFilterCriteria) :
    holdsMinPrice p c = !failMinPrice p c := by
  unfold holdsMinPrice failMinPrice
  rcases c.min_price with _ | m
  · rfl
  · exact decideLeEqNotDecideLt m p.price_current

theorem holdsMaxPrice_eq (p : CrawledProductItemExtended) (c : ProductFilterCriteria) :
    holdsMaxPrice p c = !failMaxPrice p c := by
  unfold holdsMaxPrice failMaxPrice
  rcases c.max_price with _ | m
  · rfl
  · exact decideLeEqNotDecideLt p.price_current m

theorem holdsPlatform_eq (p : CrawledProductItemExtended) (c : ProductFilterCriteria) :
    holdsPlatform p c = !failPlatform p c := by
  unfold holdsPlatform failPlatform
  rcases c.platforms with _ | ps
  · rfl
  · simp

theorem holdsMall_eq (p : CrawledProductItemExtended) (c : ProductFilterCriteria) :
    holdsMall p c = !failMall p c := by
  unfold holdsMall failMall
  rcases c.is_mall with _ | b
  · rfl
  · simp [bne]

theorem holdsVerified_eq (p : CrawledProductItemExtended) (c : ProductFilterCriteria) :
    holdsVerified p c = !failVerified p c := by
  unfold holdsVerified failVerified
  rcases c.is_verified_seller with _ | b
  · rfl
  · simp [bne]

theorem holdsRequiredKeywords_eq (p : CrawledProductItemExtended) (c : ProductFilterCriteria) :
    holdsRequiredKeywords p c = !failRequiredKeywords p c := by
  unfold holdsRequiredKeywords failRequiredKeywords
  rcases c.required_keywords with _ | kws
  · rfl
  · simp

theorem holdsExcludedKeywords_eq (p : CrawledProductItemExtended) (c : ProductFilterCriteria) :
    holdsExcludedKeywords p c = !failExcludedKeywords p c := by
  unfold holdsExcludedKeywords failExcludedKeywords
  rcases c.excluded_keywords with _ | kws <;> rfl

theorem holdsMinSales_eq (p : CrawledProductItemExtended) (c : ProductFilterCriteria) :
    holdsMinSales p c = !failMinSales p c := by
  unfold holdsMinSales failMinSales
  rcases c.min_sales_count with _ | m
  · rfl
  · rcases p.sales_count with _ | s
    · rfl
    · exact decideLeEqNotDecideLt m s

theorem holdsMinTrust_eq (p : CrawledProductItemExtended) (c : ProductFilterCriteria) :
    holdsMinTrust p c = !failMinTrust p c := by
  unfold holdsMinTrust failMinTrust
  rcases c.min_trust_score with _ | m
  · rfl
  · rcases p.trust_score with _ | t
    · rfl
    · exact decideLeEqNotDecideLt m t

theorem holdsTrustBadge_eq (p : CrawledProductItemExtended) (c : ProductFilterCriteria) :
    holdsTrustBadge p c = !failTrustBadge p c := by
  unfold holdsTrustBadge failTrustBadge
  rcases c.trust_badge_types with _ | ts
  · rfl
  · rcases p.trust_badge_type with _ | t
    · rfl
    · simp

theorem holdsRequiredBrands_eq (p : CrawledProductItemExtended) (c : ProductFilterCriteria) :
    holdsRequiredBrands p c = !failRequiredBrands p c := by
  unfold holdsRequiredBrands failRequiredBrands
  rcases c.required_brands with _ | bs
  · rfl
  · rcases p.brand with _ | b
    · rfl
    · simp

theorem holdsExcludedBrands_eq (p : CrawledProductItemExtended) (c : ProductFilterCriteria) :
    holdsExcludedBrands p c = !failExcludedBrands p c := by
  unfold holdsExcludedBrands failExcludedBrands
  rcases c.excluded_brands with _ | bs
  · rfl
  · rcases p.brand with _ | b <;> rfl

theorem holdsSellerLocation_eq (p : CrawledProductItemExtended) (c : ProductFilterCriteria) :
    holdsSellerLocation p c = !failSellerLocation p c := by
  unfold holdsSellerLocation failSellerLocation
  rcases c.seller_locations with _ | ls
  · rfl
  · rcases p.seller_location with _ | l
    · rfl
    · simp

/-- The transcribed early-return matcher equals the spec-side conjunction of
per-dimension checks. -/
theorem matches_eq_specMatches (p : CrawledProductItemExtended) (c : ProductFilterCriteria) :
    matches_criteria p c = specMatches p c := by
  unfold matches_criteria specMatches
  simp only [ifFalseLeft, holdsMinRating_eq, holdsMaxRating_eq, holdsMinReview_eq,
    holdsMaxReview_eq, holdsMinPrice_eq, holdsMaxPrice_eq, holdsPlatform_eq, holdsMall_eq,
    holdsVerified_eq, holdsRequiredKeywords_eq, holdsExcludedKeywords_eq, holdsMinSales_eq,
    holdsMinTrust_eq, holdsTrustBadge_eq, holdsRequiredBrands_eq, holdsExcludedBrands_eq,
    holdsSellerLocation_eq, Bool.and_true, Bool.and_assoc]

/-- A candidate with all criteria dimensions absent always matches. -/
theorem matches_emptyCriteria (p : CrawledProductItemExtended) :
    matches_criteria p emptyCriteria = true := rfl

/-- C5: for all candidate lists C and criteria P, filtering is idempotent:
`filter_products (filter_products C P) P = filter_products C P`. -/
theorem filter_products_idempotent (C : List CrawledProductItemExtended)
    (P : ProductFilterCriteria) :
    filter_products (filter_products C P) P = filter_products C P := by
  unfold filter_products
  exact List.filter_eq_self.mpr fun a ha => (List.mem_filter.mp ha).2

/-- C6: a candidate passes the filter iff every present (non-None) criteria
dimension holds, absent dimensions being vacuously satisfied (the matcher equals
the AND of the per-dimension checks); in particular, with no dimensions set,
`filter_products` is the identity. -/
theorem filter_conjunctive_and_empty_identity :
    (∀ (p : CrawledProductItemExtended) (c : ProductFilterCriteria),
      matches_criteria p c = specMatches p c) ∧
    (∀ C : List CrawledProductItemExtended, filter_products C emptyCriteria = C) := by
  refine ⟨matches_eq_specMatches, fun C => ?_⟩
  unfold filter_products
  exact List.filter_eq_self.mpr fun a _ => matches_emptyCriteria a

/-- C10: the filter treats missing candidate fields asymmetrically — a `none`
field fails the lower-bound / required-membership dimension but passes the
corresponding upper-bound / exclusion dimension (rating, review count, brand). -/
theorem missing_field_asymmetry (p : CrawledProductItemExtended) (r : ℚ) (n : Int)
    (bs : List String) (hr : p.rating_score = none) (hv : p.review_count = none)
    (hb : p.brand = none) :
    matches_criteria p { emptyCriteria with min_rating := some r } = false ∧
    matches_criteria p { emptyCriteria with max_rating := some r } = true ∧
    matches_criteria p { emptyCriteria with min_review_count := some n } = false ∧
    matches_criteria p { emptyCriteria with max_review_count := some n } = true ∧
    matches_criteria p { emptyCriteria with required_brands := some bs } = false ∧
    matches_criteria p { emptyCriteria with excluded_brands := some bs } = true := by
  refine ⟨?_, ?_, ?_, ?_, ?_, ?_⟩ <;>
    simp [matches_criteria, emptyCriteria, failMinRating, failMaxRating, failMinReview,
      failMaxReview, failMinPrice, failMaxPrice, failPlatform, failMall, failVerified,
      failRequiredKeywords, failExcludedKeywords, failMinSales, failMinTrust,
      failTrustBadge, failRequiredBrands, failExcludedBrands, failSellerLocation,
      hr, hv, hb]

/-- Witness for `missing_field_asymmetry` at a concrete candidate. -/
theorem missing_field_asymmetry_witness :
    pAllMissing.rating_score = none ∧ pAllMissing.review_count = none ∧
    pAllMissing.brand = none ∧
    (matches_criteria pAllMissing { emptyCriteria with min_rating := some 4 } = false ∧
     matches_criteria pAllMissing { emptyCriteria with max_rating := some 4 } = true ∧
     matches_criteria pAllMissing { emptyCriteria with min_review_count := some 10 } = false ∧
     matches_criteria pAllMissing { emptyCriteria with max_review_count := some 10 } = true ∧
     matches_criteria pAllMissing { emptyCriteria with required_brands := some ["X"] } = false ∧
     matches_criteria pAllMissing { emptyCriteria with excluded_brands := some ["X"] } = true) :=
  ⟨rfl, rfl, rfl, missing_field_asymmetry pAllMissing 4 10 ["X"] rfl rfl rfl⟩

/-! ### Resilience-layer theorems -/

/-- C2 counterexample: the claim says the classification consults the structured
status/code field first and falls back to text only for opaque errors; the code
runs text matching first and unconditionally.  On an error with structured
status 404 whose text mentions "network", the code says retryable while the
structured-first policy modelled from the spec says not. -/
theorem retryable_structured_first_counterexample :
    is_retryable_error true e404 = true ∧ specRetryable e404 = false := by decide

/-- C2 (amended): an error is classified retryable exactly when its lowercased
`str`/`repr` text matches one of the network/503/unavailable/overloaded/429/
rate-limit patterns, or it is a recognized Google API exception instance, or its
`status_code` is one of 503/429/500/502/504, or its `code` is one of
113/111/110/503/429/500/502/504 — an unordered disjunction in which text
matching applies to every error, not only to opaque ones. -/
theorem retryable_classification_disjunction (g : Bool) (e : PyError) :
    is_retryable_error g e =
      (retryTextPatterns.any (textPatternHit e) ||
       g && (e.isServiceUnavailable || e.isTooManyRequests || e.isResourceExhausted) ||
       (match e.status_code with
        | some v => [503, 429, 500, 502, 504].contains v
        | none => false) ||
       (match e.code with
        | some v => [113, 111, 110, 503, 429, 500, 502, 504].contains v
        | none => false)) := by
  unfold is_retryable_error retryTextPatterns
  simp only [ifTrueLeft, List.any_cons, List.any_nil, Bool.or_false, Bool.or_assoc]

/-! ### Retry-loop helper lemmas -/

theorem generateAux_attempts_le (o : ℕ → Except E R) (rb : E → Bool) (mr : ℕ) (d : ℚ) :
    ∀ (fuel attempt : ℕ), (generateAux o rb mr d attempt fuel).attempts ≤ fuel := by
  intro fuel
  induction fuel with
  | zero => intro attempt; simp [generateAux]
  | succ f ih =>
    intro attempt
    unfold generateAux
    match h : o attempt with
    | .ok r => simp
    | .error e =>
      by_cases hc : (rb e && decide (attempt < mr - 1)) = true
      · simp only [hc, if_true]
        exact Nat.succ_le_succ (ih (attempt + 1))
      · simp only [hc, if_false]
        exact Nat.succ_le_succ (Nat.zero_le f)

theorem generateAux_exhaust (o : ℕ → Except E R) (rb : E → Bool) (mr : ℕ) (d : ℚ)
    (errs : ℕ → E) (h : ∀ i, i < mr → o i = .error (errs i) ∧ rb (errs i) = true) :
    ∀ (fuel attempt : ℕ), 1 ≤ fuel → attempt + fuel = mr →
      (generateAux o rb mr d attempt fuel).outcome = .failure (errs (mr - 1)) ∧
      (generateAux o rb mr d attempt fuel).attempts = fuel := by
  intro fuel
  induction fuel with
  | zero => intro attempt h1 _; omega
  | succ f ih =>
    intro attempt _ hsum
    have hlt : attempt < mr := by omega
    obtain ⟨ho, hrb⟩ := h attempt hlt
    unfold generateAux
    rw [ho]
    rcases Nat.eq_zero_or_pos f with hf | hf
    · subst hf
      have hnot : ¬ (attempt < mr - 1) := by omega
      have hattempt : attempt = mr - 1 := by omega
      simp [hrb, hnot, hattempt]
    · have hyes : attempt < mr - 1 := by omega
      have := ih (attempt + 1) hf (by omega)
      simp only [hrb, decide_eq_true_eq, hyes, decide_True, Bool.and_self, if_true]
      exact ⟨this.1, by simp [this.2]⟩

/-- C3: `GeminiAgent.generate` makes at most `max_retries` attempts; with
attempts 0 and 1 failing retryably and attempt 2 succeeding (max_retries 3) it
returns attempt 2's result after sleeping `base*2^0` then `base*2^1`; a
non-retryable first error propagates with zero sleeps after exactly one
attempt; all attempts failing retryably re-raises the last error after exactly
`max_retries` attempts. -/
theorem gemini_retry_contract :
    (∀ (E R : Type) (o : ℕ → Except E R) (rb : E → Bool) (mr : ℕ) (d : ℚ),
      (geminiGenerate o rb mr d).attempts ≤ mr) ∧
    (∀ (E R : Type) (o : ℕ → Except E R) (rb : E → Bool) (d : ℚ) (e0 e1 : E) (r : R),
      o 0 = .error e0 → o 1 = .error e1 → rb e0 = true → rb e1 = true → o 2 = .ok r →
      geminiGenerate o rb 3 d = ⟨.success r, [d * 2 ^ 0, d * 2 ^ 1], 3⟩) ∧
    (∀ (E R : Type) (o : ℕ → Except E R) (rb : E → Bool) (mr : ℕ) (d : ℚ) (e : E),
      1 ≤ mr → o 0 = .error e → rb e = false →
      geminiGenerate o rb mr d = ⟨.failure e, [], 1⟩) ∧
    (∀ (E R : Type) (o : ℕ → Except E R) (rb : E → Bool) (mr : ℕ) (d : ℚ) (errs : ℕ → E),
      1 ≤ mr → (∀ i, i < mr → o i = .error (errs i) ∧ rb (errs i) = true) →
      (geminiGenerate o rb mr d).outcome = .failure (errs (mr - 1)) ∧
      (geminiGenerate o rb mr d).attempts = mr) := by
  refine ⟨?_, ?_, ?_, ?_⟩
  · intro E R o rb mr d
    exact generateAux_attempts_le o rb mr d mr 0
  · intro E R o rb d e0 e1 r h0 h1 hr0 hr1 h2
    unfold geminiGenerate generateAux
    rw [h0]
    simp only [hr0, Nat.lt_sub_iff_add_lt]
    norm_num
    unfold generateAux
    rw [h1]
    simp only [hr1]
    norm_num
    unfold generateAux
    rw [h2]
    simp
  · intro E R o rb mr d e hmr h0 hrb
    obtain ⟨k, rfl⟩ : ∃ k, mr = k + 1 := ⟨mr - 1, by omega⟩
    unfold geminiGenerate generateAux
    rw [h0]
    simp [hrb]
  · intro E R o rb mr d errs hmr h
    exact generateAux_exhaust o rb mr d errs h mr 0 hmr (by omega)

/-- Witness for `gemini_retry_contract` at concrete outcome sequences. -/
theorem gemini_retry_contract_witness :
    (geminiGenerate oTwoFailures rbAll 3 2).attempts ≤ 3 ∧
    geminiGenerate oTwoFailures rbAll 3 2 = ⟨.success 7, [2 * 2 ^ 0, 2 * 2 ^ 1], 3⟩ ∧
    geminiGenerate oFailsWithFive rbNone 3 2 = ⟨.failure 5, [], 1⟩ ∧
    (geminiGenerate oAlwaysFails rbAll 3 2).outcome = .failure 2 ∧
    (geminiGenerate oAlwaysFails rbAll 3 2).attempts = 3 := by
  have h := gemini_retry_contract
  refine ⟨h.1 ℕ ℕ oTwoFailures rbAll 3 2,
    h.2.1 ℕ ℕ oTwoFailures rbAll 2 1 2 7 rfl rfl rfl rfl rfl,
    h.2.2.1 ℕ ℕ oFailsWithFive rbNone 3 2 5 (by decide) rfl rfl, ?_, ?_⟩
  · exact (h.2.2.2 ℕ ℕ oAlwaysFails rbAll 3 2 (fun i => i) (by decide)
      (fun i _ => ⟨rfl, rfl⟩)).1
  · exact (h.2.2.2 ℕ ℕ oAlwaysFails rbAll 3 2 (fun i => i) (by decide)
      (fun i _ => ⟨rfl, rfl⟩)).2

/-- C4 counterexample: the claim says every provider agent wraps backend calls
in the resilience layer; `OpenAIAgent.generate` does not — a classified
retryable error (`e429`) still propagates after exactly one attempt with no
backoff sleep. -/
theorem openai_unwrapped_counterexample :
    is_retryable_error true e429 = true ∧
    openAIGenerate (Except.error e429 : Except PyError Unit) =
      ⟨.failure e429, [], 1⟩ := by decide

/-- C4 (amended): only the Gemini agent wraps its backend call in the retry
layer (attempts bounded by `max_retries`); the OpenAI agent always issues
exactly one attempt and never sleeps, propagating any error immediately. -/
theorem provider_retry_coverage :
    (∀ (E R : Type) (c : Except E R),
      (openAIGenerate c).attempts = 1 ∧ (openAIGenerate c).sleeps = []) ∧
    (∀ (E R : Type) (o : ℕ → Except E R) (rb : E → Bool) (mr : ℕ) (d : ℚ),
      (geminiGenerate o rb mr d).attempts ≤ mr) := by
  constructor
  · intro E R c
    cases c <;> exact ⟨rfl, rfl⟩
  · intro E R o rb mr d
    exact generateAux_attempts_le o rb mr d mr 0

/-! ### Crawl-loop theorems -/

theorem addCrawledItems_length_le (u : String) (items : List CrawledProductItem) :
    ∀ acc : List CrawledProductItemExtended, acc.length ≤ MAX_CRAWL_PRODUCTS →
      (addCrawledItems u items acc).length ≤ MAX_CRAWL_PRODUCTS := by
  induction items with
  | nil => intro acc h; exact h
  | cons item rest ih =>
    intro acc h
    unfold addCrawledItems
    by_cases hc : acc.length ≥ MAX_CRAWL_PRODUCTS
    · simp only [hc, decide_True, if_true]
      exact h
    · simp only [hc, decide_False, if_false]
      apply ih
      simp only [List.length_append, List.length_cons, List.length_nil]
      omega

theorem crawlAux_invariant (scrape : ℕ → String → ℕ → Except Unit (List CrawledProductItem))
    (mpu : ℕ) (hmpu : 1 ≤ mpu) (urls : List String) :
    ∀ (idx : ℕ) (acc : List CrawledProductItemExtended), acc.length ≤ MAX_CRAWL_PRODUCTS →
      (crawlAux scrape mpu urls idx acc).1.length ≤ MAX_CRAWL_PRODUCTS ∧
      ∀ l ∈ (crawlAux scrape mpu urls idx acc).2, 1 ≤ l ∧ l ≤ mpu := by
  induction urls with
  | nil =>
    intro idx acc h
    exact ⟨h, by intro l hl; simp [crawlAux] at hl⟩
  | cons url rest ih =>
    intro idx acc h
    unfold crawlAux
    by_cases hc : acc.length ≥ MAX_CRAWL_PRODUCTS
    · simp only [hc, decide_True, if_true]
      exact ⟨h, by intro l hl; simp at hl⟩
    · simp only [hc, decide_False, if_false]
      have hrem : 1 ≤ MAX_CRAWL_PRODUCTS - acc.length := by
        unfold MAX_CRAWL_PRODUCTS at *; omega
      have hlim : 1 ≤ min mpu (MAX_CRAWL_PRODUCTS - acc.length) ∧
          min mpu (MAX_CRAWL_PRODUCTS - acc.length) ≤ mpu := by
        constructor
        · exact le_min hmpu hrem
        · exact min_le_left _ _
      match hs : scrape idx url (min mpu (MAX_CRAWL_PRODUCTS - acc.length)) with
      | .error _ =>
        have := ih (idx + 1) acc h
        refine ⟨this.1, ?_⟩
        intro l hl
        simp only [List.mem_cons] at hl
        rcases hl with rfl | hl
        · exact hlim
        · exact this.2 l hl
      | .ok items =>
        have hlen := addCrawledItems_length_le url items acc (le_of_not_le hc)
        have := ih (idx + 1) (addCrawledItems url items acc) hlen
        refine ⟨this.1, ?_⟩
        intro l hl
        simp only [List.mem_cons] at hl
        rcases hl with rfl | hl
        · exact hlim
        · exact this.2 l hl

/-- C1: the crawl loop collects at most `MAX_CRAWL_PRODUCTS` (20) candidates in
total, for every URL list and every scraper behavior (including scrapers that
return more items than asked); and every scraper call it issues requests
between 1 and the per-URL quota `max(1, 20 // urlCount)` items. -/
theorem crawl_respects_global_cap
    (scrape : ℕ → String → ℕ → Except Unit (List CrawledProductItem))
    (urls : List String) :
    (crawlLoop scrape urls).1.length ≤ MAX_CRAWL_PRODUCTS ∧
    ((crawlLoop scrape urls).2.all
      fun l => decide (1 ≤ l) && decide (l ≤ max_per_url_of urls)) = true := by
  have h := crawlAux_invariant scrape (max_per_url_of urls)
    (le_max_left 1 _) urls 0 [] (by simp [MAX_CRAWL_PRODUCTS])
  refine ⟨h.1, ?_⟩
  rw [List.all_eq_true]
  intro l hl
  have := h.2 l hl
  simp [this.1, this.2]

/-! ### Orchestrator theorems -/

theorem execute_shopee_eq (env : DiscoveryEnv) (uq txt : String) (mp : ℕ)
    (criteria : ProductFilterCriteria)
    (htxt : ¬ txt = "")
    (hparse : env.intentParse txt = .ok criteria)
    (hshopee : ((criteria.platforms.getD []).map lowerStr).contains "shopee" = true) :
    execute_auto_discovery env uq (some txt) mp =
      platformNotSupportedEnvelope
        (if (((criteria.platforms.getD []).map lowerStr).filter
              fun p => p ≠ "shopee").isEmpty
         then ["lazada", "tiki"]
         else ((criteria.platforms.getD []).map lowerStr).filter fun p => p ≠ "shopee")
        criteria := by
  have hne : (criteria.platforms.getD []).isEmpty = false := by
    rcases h : criteria.platforms.getD [] with _ | ⟨a, as⟩
    · rw [h] at hshopee; simp at hshopee
    · rfl
  simp only [execute_auto_discovery, htxt, if_false, hparse, hne, hshopee,
    Bool.false_eq_true, if_true]

/-- C8: when the parsed criteria's platform set contains the administratively
disabled platform shopee (case-insensitively), `execute_auto_discovery` returns
the `platform_not_supported` error with a non-empty suggested-platform list (the
other requested platforms, or `["lazada", "tiki"]` when none remain), and the
result does not depend on the criteria validator — the short-circuit happens
before the validator step. -/
theorem shopee_short_circuit (env : DiscoveryEnv) (uq txt : String) (mp : ℕ)
    (criteria : ProductFilterCriteria)
    (htxt : ¬ txt = "")
    (hparse : env.intentParse txt = .ok criteria)
    (hshopee : ((criteria.platforms.getD []).map lowerStr).contains "shopee" = true) :
    ∃ available : List String,
      execute_auto_discovery env uq (some txt) mp =
        platformNotSupportedEnvelope available criteria ∧
      available ≠ [] ∧
      available = (if (((criteria.platforms.getD []).map lowerStr).filter
            fun p => p ≠ "shopee").isEmpty
          then ["lazada", "tiki"]
          else ((criteria.platforms.getD []).map lowerStr).filter fun p => p ≠ "shopee") ∧
      (execute_auto_discovery env uq (some txt) mp).error_type =
        some "platform_not_supported" ∧
      ∀ v, execute_auto_discovery { env with validator := v } uq (some txt) mp =
           execute_auto_discovery env uq (some txt) mp := by
  refine ⟨_, execute_shopee_eq env uq txt mp criteria htxt hparse hshopee, ?_, rfl, ?_, ?_⟩
  · split
    · simp
    · rename_i hfil
      intro hnil
      rw [hnil] at hfil
      exact hfil rfl
  · rw [execute_shopee_eq env uq txt mp criteria htxt hparse hshopee]
    rfl
  · intro v
    rw [execute_shopee_eq { env with validator := v } uq txt mp criteria htxt hparse hshopee,
      execute_shopee_eq env uq txt mp criteria htxt hparse hshopee]

/-- Witness for `shopee_short_circuit`: a request restricted to `"Shopee"`
only, suggesting the default `["lazada", "tiki"]`. -/
theorem shopee_short_circuit_witness :
    (¬ ("chỉ tìm trên shopee" : String) = "") ∧
    envShopee.intentParse "chỉ tìm trên shopee" = .ok critShopeeOnly ∧
    ((critShopeeOnly.platforms.getD []).map lowerStr).contains "shopee" = true ∧
    (∃ available : List String,
      execute_auto_discovery envShopee "coffee" (some "chỉ tìm trên shopee") 10 =
        platformNotSupportedEnvelope available critShopeeOnly ∧
      available ≠ [] ∧
      available = (if (((critShopeeOnly.platforms.getD []).map lowerStr).filter
            fun p => p ≠ "shopee").isEmpty
          then ["lazada", "tiki"]
          else ((critShopeeOnly.platforms.getD []).map lowerStr).filter
            fun p => p ≠ "shopee") ∧
      (execute_auto_discovery envShopee "coffee" (some "chỉ tìm trên shopee") 10).error_type =
        some "platform_not_supported" ∧
      ∀ v, execute_auto_discovery { envShopee with validator := v } "coffee"
            (some "chỉ tìm trên shopee") 10 =
           execute_auto_discovery envShopee "coffee" (some "chỉ tìm trên shopee") 10) :=
  ⟨by decide, rfl, by decide,
   shopee_short_circuit envShopee "coffee" "chỉ tìm trên shopee" 10 critShopeeOnly
     (by decide) rfl (by decide)⟩

theorem pipeline_result_cases (env : DiscoveryEnv) (uq : String) (mp : ℕ)
    (fc : Option ProductFilterCriteria) :
    discoveryPipeline env uq mp fc = noProductsFoundEnvelope ∨
    discoveryPipeline env uq mp fc = crawlFailedEnvelope ∨
    (∃ e, discoveryPipeline env uq mp fc = executionErrorEnvelope e) ∨
    (∃ n, discoveryPipeline env uq mp fc = noProductsAfterFilterEnvelope n) ∨
    (∃ a b, discoveryPipeline env uq mp fc = importFailedEnvelope a b) ∨
    (∃ g a b ids, discoveryPipeline env uq mp fc = successEnvelope g a b ids) := by
  unfold discoveryPipeline
  dsimp only
  repeat' split
  all_goals
    first
    | exact Or.inl rfl
    | exact Or.inr (Or.inl rfl)
    | exact Or.inr (Or.inr (Or.inl ⟨_, rfl⟩))
    | exact Or.inr (Or.inr (Or.inr (Or.inl ⟨_, rfl⟩)))
    | exact Or.inr (Or.inr (Or.inr (Or.inr (Or.inl ⟨_, _, rfl⟩))))
    | exact Or.inr (Or.inr (Or.inr (Or.inr (Or.inr ⟨_, _, _, _, rfl⟩))))

theorem pipeline_counts (env : DiscoveryEnv) (uq : String) (mp : ℕ)
    (fc : Option ProductFilterCriteria) :
    ((discoveryPipeline env uq mp fc).error_type = some "crawl_failed" →
      (discoveryPipeline env uq mp fc).products_found = some 0) ∧
    ((discoveryPipeline env uq mp fc).error_type = some "no_products_after_filter" →
      (discoveryPipeline env uq mp fc).products_found.isSome = true ∧
      (discoveryPipeline env uq mp fc).products_filtered = some 0) ∧
    ((discoveryPipeline env uq mp fc).error_type = some "import_failed" →
      (discoveryPipeline env uq mp fc).products_found.isSome = true ∧
      (discoveryPipeline env uq mp fc).products_filtered.isSome = true ∧
      (discoveryPipeline env uq mp fc).products_imported = some 0) := by
  rcases pipeline_result_cases env uq mp fc with h | h | ⟨e, h⟩ | ⟨n, h⟩ | ⟨a, b, h⟩ |
    ⟨g, a, b, ids, h⟩ <;> rw [h]
  · exact ⟨fun hh => absurd (Option.some.inj hh) (by decide),
      fun hh => absurd (Option.some.inj hh) (by decide),
      fun hh => absurd (Option.some.inj hh) (by decide)⟩
  · exact ⟨fun _ => rfl, fun hh => absurd (Option.some.inj hh) (by decide),
      fun hh => absurd (Option.some.inj hh) (by decide)⟩
  · exact ⟨fun hh => absurd (Option.some.inj hh) (by decide),
      fun hh => absurd (Option.some.inj hh) (by decide),
      fun hh => absurd (Option.some.inj hh) (by decide)⟩
  · exact ⟨fun hh => absurd (Option.some.inj hh) (by decide), fun _ => ⟨rfl, rfl⟩,
      fun hh => absurd (Option.some.inj hh) (by decide)⟩
  · exact ⟨fun hh => absurd (Option.some.inj hh) (by decide),
      fun hh => absurd (Option.some.inj hh) (by decide),
      fun _ => ⟨rfl, rfl, rfl⟩⟩
  · exact ⟨fun hh => Option.noConfusion hh, fun hh => Option.noConfusion hh,
      fun hh => Option.noConfusion hh⟩

theorem execute_reduces (env : DiscoveryEnv) (uq txt : String) (mp : ℕ)
    (hne : ¬ txt = "") :
    (∃ e, execute_auto_discovery env uq (some txt) mp = intentParsingFailedEnvelope e) ∨
    (∃ a c, execute_auto_discovery env uq (some txt) mp = platformNotSupportedEnvelope a c) ∨
    (∃ m c, execute_auto_discovery env uq (some txt) mp =
      criteriaValidationFailedEnvelope m c) ∨
    (∃ c, execute_auto_discovery env uq (some txt) mp =
      discoveryPipeline env uq mp (some c)) := by
  unfold execute_auto_discovery
  simp only [hne, if_false]
  rcases hp : env.intentParse txt with err | criteria
  · exact Or.inl ⟨err, rfl⟩
  · dsimp only
    unfold validateStage
    dsimp only
    repeat' split
    all_goals
      first
      | exact Or.inr (Or.inl ⟨_, _, rfl⟩)
      | exact Or.inr (Or.inr (Or.inl ⟨_, _, rfl⟩))
      | exact Or.inr (Or.inr (Or.inr ⟨_, rfl⟩))

/-- C7 counterexample: the claim says every error envelope carries the per-stage
counts computed before the failure; the `execution_error` envelope does not —
with one product crawled and the importer raising, the envelope has
`error_type = execution_error` but no `products_found` key, although the found
count (1) had been computed. -/
theorem error_envelope_missing_counts_counterexample :
    (execute_auto_discovery envImportRaises "q" none 20).error_type =
      some "execution_error" ∧
    (execute_auto_discovery envImportRaises "q" none 20).products_found = none ∧
    (crawlLoop envImportRaises.scrape ["http://lazada.vn/s"]).1.length = 1 := by
  decide

/-- C7 (amended): among the orchestrator's error envelopes, exactly the
post-crawl ones carry partial counts — `crawl_failed` carries
`products_found = 0`, `no_products_after_filter` carries the found count and
`products_filtered = 0`, `import_failed` carries found and filtered counts and
`products_imported = 0`; the pre-crawl failures and the catch-all
`execution_error` envelope carry no counts. -/
theorem count_bearing_error_envelopes (env : DiscoveryEnv) (uq : String)
    (fct : Option String) (mp : ℕ) :
    ((execute_auto_discovery env uq fct mp).error_type = some "crawl_failed" →
      (execute_auto_discovery env uq fct mp).products_found = some 0) ∧
    ((execute_auto_discovery env uq fct mp).error_type = some "no_products_after_filter" →
      (execute_auto_discovery env uq fct mp).products_found.isSome = true ∧
      (execute_auto_discovery env uq fct mp).products_filtered = some 0) ∧
    ((execute_auto_discovery env uq fct mp).error_type = some "import_failed" →
      (execute_auto_discovery env uq fct mp).products_found.isSome = true ∧
      (execute_auto_discovery env uq fct mp).products_filtered.isSome = true ∧
      (execute_auto_discovery env uq fct mp).products_imported = some 0) := by
  rcases fct with _ | txt
  · exact pipeline_counts env uq mp none
  · by_cases he : txt = ""
    · subst he
      exact pipeline_counts env uq mp none
    · rcases execute_reduces env uq txt mp he with ⟨e, h⟩ | ⟨a, c, h⟩ | ⟨m, c, h⟩ |
        ⟨c, h⟩ <;> rw [h]
      · exact ⟨fun hh => absurd (Option.some.inj hh) (by decide),
          fun hh => absurd (Option.some.inj hh) (by decide),
          fun hh => absurd (Option.some.inj hh) (by decide)⟩
      · exact ⟨fun hh => absurd (Option.some.inj hh) (by decide),
          fun hh => absurd (Option.some.inj hh) (by decide),
          fun hh => absurd (Option.some.inj hh) (by decide)⟩
      · exact ⟨fun hh => absurd (Option.some.inj hh) (by decide),
          fun hh => absurd (Option.some.inj hh) (by decide),
          fun hh => absurd (Option.some.inj hh) (by decide)⟩
      · exact pipeline_counts env uq mp (some c)

/-- Witness for `count_bearing_error_envelopes` on an environment whose import
returns no ids: the `import_failed` envelope carries found/filtered/imported. -/
theorem count_bearing_error_envelopes_witness :
    (execute_auto_discovery envImportEmpty "q" none 20).error_type =
      some "import_failed" ∧
    (execute_auto_discovery envImportEmpty "q" none 20).products_found.isSome = true ∧
    (execute_auto_discovery envImportEmpty "q" none 20).products_filtered.isSome = true ∧
    (execute_auto_discovery envImportEmpty "q" none 20).products_imported = some 0 :=
  ⟨by decide, (count_bearing_error_envelopes envImportEmpty "q" none 20).2.2 (by decide)⟩

/-! ### Price-normalization theorems -/

/-- C9 counterexample: the claim says every normalized price is non-negative;
the parser passes a negative raw price through unclamped — the raw string
`"-5"` normalizes to `price_current = -5 < 0`. -/
theorem negative_price_counterexample :
    (convert_to_extended itemNegPrice "http://lazada.vn/x").price_current = -5 ∧
    (convert_to_extended itemNegPrice "http://lazada.vn/x").price_current < 0 := by
  decide

/-- C9 (amended): normalization never raises — `price_current` is always the
total function `parsePrice` of the raw price, with the sentinel `0.0` for an
absent raw price and for a price string that survives cleanup unparsable; a
negative raw price, however, passes through as a negative `price_current`. -/
theorem price_sentinel_on_unparsable (item : CrawledProductItem) (url s : String) :
    ((convert_to_extended item url).price_current = parsePrice item.price) ∧
    (item.price = RawPrice.absent → (convert_to_extended item url).price_current = 0) ∧
    (item.price = RawPrice.strv s → pyFloat (cleanDots (stripCurrency s)) = none →
      (convert_to_extended item url).price_current = 0) := by
  refine ⟨rfl, ?_, ?_⟩
  · intro h
    simp [convert_to_extended, h, parsePrice]
  · intro h hp
    simp only [convert_to_extended, h, parsePrice, hp]
    split <;> rfl

/-- Witness for `price_sentinel_on_unparsable`: an absent price and the
unparsable price string `"N/A"` both normalize to the sentinel `0`. -/
theorem price_sentinel_on_unparsable_witness :
    pyFloat (cleanDots (stripCurrency "N/A")) = none ∧
    (convert_to_extended itemAbsentPrice "u").price_current = 0 ∧
    (convert_to_extended itemBadPrice "u").price_current = 0 :=
  ⟨by decide, (price_sentinel_on_unparsable itemAbsentPrice "u" "N/A").2.1 rfl,
   (price_sentinel_on_unparsable itemBadPrice "u" "N/A").2.2 rfl (by decide)⟩
